import Mathlib

/-!
Shallow embedding of `build/generate_icons.py`, a script that rasterizes
`logo.svg` into a fixed set of PNG files, a multi-size `favicon.ico`, and
six staging PNGs for manual ICNS packaging.

The script is embedded as a pure function of an environment that supplies
the two external capabilities (cairosvg's `svg2png` rasterizer and Pillow's
image handling) together with the availability of those imports and the
existence of the input file.  The function returns the console lines
printed, the file writes performed (in order), and the Python-level result:
either a returned boolean or an uncaught exception.

Python name resolution matters here: the source calls `io.BytesIO` on
line 70 without ever importing `io`, so scope contents are modelled
explicitly and the resulting `NameError` arises from that model.
-/

set_option autoImplicit false

/-- Raw bytes of a file, abstractly. -/
abbrev Bytes := List Nat

/-- A file write: target filename and the bytes written (mode `wb`,
so the write replaces any previous content wholesale). -/
abbrev FileWrite := String × Bytes

/-- Uncaught Python exceptions the script can raise. -/
inductive PyError where
  | nameError (n : String)
  | rasterError (msg : String)
  | indexError (i : Nat)
deriving DecidableEq, Repr

/-- A Pillow image handle: pixel dimensions plus the decoded pixel data. -/
structure Image where
  width : Nat
  height : Nat
  data : Bytes
deriving DecidableEq, Repr

/-- The external world of the script: whether the two third-party imports
succeed, whether `logo.svg` exists, and the behaviour of the opaque
third-party capabilities.  `svg2png w h` models
`cairosvg.svg2png(url=str(svg_file), output_width=w, output_height=h)`
as a deterministic function that either returns PNG bytes or raises;
`openImage` models `PIL.Image.open` on a byte stream; `saveIco` models
`img.save(..., format=ICO, sizes=...)` producing the container bytes
from the base image and the size table. -/
structure Env where
  cairosvgOk : Bool
  pillowOk : Bool
  svgExists : Bool
  svg2png : Nat → Nat → Except String Bytes
  openImage : Bytes → Image
  saveIco : Image → List (Nat × Nat) → Bytes

/-- Names bound at module level of `generate_icons.py` (lines 7-9:
`import os`, `import sys`, `from pathlib import Path`). -/
def module_imports : List String := ["os", "sys", "Path"]

/-- Names bound by the imports inside `generate_icons` (lines 13-14:
`import cairosvg`, `from PIL import Image`). -/
def function_imports : List String := ["cairosvg", "Image"]

/-- Local variables assigned in the body of `generate_icons`. -/
def local_names : List String :=
  ["sizes", "svg_file", "filename", "size", "png_data",
   "ico_sizes", "ico_images", "img", "icns_sizes", "icns_images", "f"]

/-- A few Python builtins the script uses; always resolvable. -/
def py_builtins : List String := ["str", "open", "print", "len"]

/-- Whether a name resolves in the scope of the body of `generate_icons`. -/
def inScope (n : String) : Bool :=
  module_imports.contains n || function_imports.contains n
    || local_names.contains n || py_builtins.contains n

/-- Identifiers referenced by the ICO assembly loop body (lines 64-71),
including the unimported `io` on line 70. -/
def ico_loop_refs : List String :=
  ["ico_sizes", "size", "cairosvg", "svg_file", "str", "png_data",
   "Image", "io", "ico_images", "img"]

/-- Identifiers referenced by the ICNS staging loop body (lines 81-88). -/
def icns_loop_refs : List String :=
  ["icns_sizes", "size", "cairosvg", "svg_file", "str", "png_data",
   "open", "f"]

/-- The primary size mapping (lines 21-36), in insertion order:
output filename to square pixel dimension. -/
def sizes : List (String × Nat) :=
  [("icon_16x16.png", 16),
   ("icon_32x32.png", 32),
   ("icon_128x128.png", 128),
   ("icon_256x256.png", 256),
   ("icon_512x512.png", 512),
   ("icon_1024x1024.png", 1024),
   ("favicon-16x16.png", 16),
   ("favicon-32x32.png", 32),
   ("favicon-96x96.png", 96),
   ("favicon-192x192.png", 192),
   ("apple-touch-icon.png", 180)]

/-- The four ICO container sizes (line 61). -/
def ico_sizes : List Nat := [16, 32, 48, 64]

/-- The six ICNS staging sizes (line 78). -/
def icns_sizes : List Nat := [16, 32, 128, 256, 512, 1024]

/-- The ICNS staging filename for a size (line 87). -/
def icnsFileName (size : Nat) : String :=
  "icon_" ++ toString size ++ "x" ++ toString size ++ ".png"

/-- The progress line printed per sweep entry (line 46). -/
def progressLine (filename : String) (size : Nat) : String :=
  "  " ++ filename ++ " (" ++ toString size ++ "x" ++ toString size ++ ")"

/-- What the PNG sweep over a list of (filename, size) pairs produces:
its console lines, its file writes in order, and an uncaught rasterizer
failure if one occurred (aborting the remainder). -/
structure SweepResult where
  prints : List String
  writes : List FileWrite
  err : Option PyError
deriving Repr

/-- The PNG sweep (lines 45-57): for each pair, print a progress line,
rasterize at size by size, and write the bytes to the filename.  A
rasterizer failure is not caught: nothing after it runs. -/
def pngSweep (env : Env) : List (String × Nat) → SweepResult
  | [] => ⟨[], [], none⟩
  | (filename, size) :: rest =>
    match env.svg2png size size with
    | Except.error msg =>
      ⟨[progressLine filename size], [], some (PyError.rasterError msg)⟩
    | Except.ok png_data =>
      let r := pngSweep env rest
      ⟨progressLine filename size :: r.prints,
       (filename, png_data) :: r.writes, r.err⟩

/-- The ICO assembly loop (lines 64-71): rasterize each size, then
`Image.open(io.BytesIO(png_data))`.  The name `io` is resolved against
the actual scope; since it is not bound there, the call raises
`NameError` before any image handle is produced. -/
def icoLoop (env : Env) : List Nat → Except PyError (List Image)
  | [] => Except.ok []
  | size :: rest =>
    match env.svg2png size size with
    | Except.error msg => Except.error (PyError.rasterError msg)
    | Except.ok png_data =>
      if inScope "io" then
        match icoLoop env rest with
        | Except.error e => Except.error e
        | Except.ok imgs => Except.ok (env.openImage png_data :: imgs)
      else
        Except.error (PyError.nameError "io")

/-- The ICNS staging loop (lines 81-88): rasterize each size and write
the raw PNG bytes straight to `icon_<size>x<size>.png`; no image handle
and no byte-stream module is involved. -/
def icnsLoop (env : Env) : List Nat → List FileWrite × Option PyError
  | [] => ([], none)
  | size :: rest =>
    match env.svg2png size size with
    | Except.error msg => ([], some (PyError.rasterError msg))
    | Except.ok png_data =>
      let r := icnsLoop env rest
      ((icnsFileName size, png_data) :: r.1, r.2)

/-- Console output of the failed-import branch (lines 16-17). -/
def importFailPrints : List String :=
  ["Required packages not found. Please install them:",
   "pip install cairosvg pillow"]

/-- The manual ICNS packaging instructions printed on success
(lines 90-104), one entry per print call. -/
def icnsInstructions : List String :=
  ["\nIcons generated successfully!",
   "\nTo create ICNS file for macOS:",
   "1. Create an iconset folder: mkdir icon.iconset",
   "2. Copy PNG files with proper names:",
   "   cp icon_16x16.png icon.iconset/icon_16x16.png",
   "   cp icon_32x32.png icon.iconset/icon_16x16@2x.png",
   "   cp icon_32x32.png icon.iconset/icon_32x32.png",
   "   cp icon_128x128.png icon.iconset/icon_32x32@2x.png",
   "   cp icon_128x128.png icon.iconset/icon_128x128.png",
   "   cp icon_256x256.png icon.iconset/icon_128x128@2x.png",
   "   cp icon_256x256.png icon.iconset/icon_256x256.png",
   "   cp icon_512x512.png icon.iconset/icon_256x256@2x.png",
   "   cp icon_512x512.png icon.iconset/icon_512x512.png",
   "   cp icon_1024x1024.png icon.iconset/icon_512x512@2x.png",
   "3. Generate ICNS: iconutil -c icns icon.iconset"]

/-- Outcome of one invocation of `generate_icons`: console lines, file
writes in order, and either the returned boolean or an uncaught error. -/
structure RunResult where
  prints : List String
  writes : List FileWrite
  result : Except PyError Bool
deriving Repr

/-- The whole of `generate_icons` (lines 11-106), translated statement by
statement: import check, input-file check, PNG sweep, ICO assembly
(printing `  favicon.ico` first, line 60), `favicon.ico` save (line 74),
ICNS staging (printing its line 77 header first), instruction prints, and
`return True`.  Any uncaught exception carries forward the prints and
writes that had already happened. -/
def generate_icons (env : Env) : RunResult :=
  if env.cairosvgOk && env.pillowOk then
    if env.svgExists then
      let sweep := pngSweep env sizes
      match sweep.err with
      | some e =>
        ⟨"Generating icons..." :: sweep.prints, sweep.writes, Except.error e⟩
      | none =>
        match icoLoop env ico_sizes with
        | Except.error e =>
          ⟨"Generating icons..." :: sweep.prints ++ ["  favicon.ico"],
           sweep.writes, Except.error e⟩
        | Except.ok ico_images =>
          match ico_images.head? with
          | none =>
            ⟨"Generating icons..." :: sweep.prints ++ ["  favicon.ico"],
             sweep.writes, Except.error (PyError.indexError 0)⟩
          | some base =>
            let icoBytes :=
              env.saveIco base (ico_images.map fun img => (img.width, img.height))
            let icns := icnsLoop env icns_sizes
            match icns.2 with
            | some e =>
              ⟨"Generating icons..." :: sweep.prints
                 ++ ["  favicon.ico", "  icon.icns (replacing existing)"],
               sweep.writes ++ [("favicon.ico", icoBytes)] ++ icns.1,
               Except.error e⟩
            | none =>
              ⟨"Generating icons..." :: sweep.prints
                 ++ ["  favicon.ico", "  icon.icns (replacing existing)"]
                 ++ icnsInstructions,
               sweep.writes ++ [("favicon.ico", icoBytes)] ++ icns.1,
               Except.ok true⟩
    else
      ⟨["SVG file logo.svg not found!"], [], Except.ok false⟩
  else
    ⟨importFailPrints, [], Except.ok false⟩

/-- The `__main__` glue (lines 108-110): `sys.exit(1)` when
`generate_icons` returns a falsy value, a normal exit 0 when it returns
`True`, and abnormal termination when an exception escapes. -/
def mainExitCode (r : RunResult) : Except PyError Nat :=
  match r.result with
  | Except.error e => Except.error e
  | Except.ok b => if b then Except.ok 0 else Except.ok 1

/-- A file system: contents by filename, `none` when absent. -/
abbrev FS := String → Option Bytes

/-- Applying the script's writes to a file system, in order; `open(..., 'wb')`
truncates, so each write fully replaces the previous content. -/
def applyWrites (ws : List FileWrite) (fs : FS) : FS :=
  match ws with
  | [] => fs
  | w :: rest => applyWrites rest (fun n => if n = w.1 then some w.2 else fs n)

/-- A deterministic, always-succeeding rasterizer for concrete runs. -/
def goodRaster : Nat → Nat → Except String Bytes :=
  fun w h => Except.ok [w, h]

/-- An environment where both imports succeed, `logo.svg` exists, and all
three capabilities behave as concrete deterministic functions. -/
def goodEnv : Env :=
  { cairosvgOk := true
    pillowOk := true
    svgExists := true
    svg2png := goodRaster
    openImage := fun b => { width := b.headD 0, height := b.headD 0, data := b }
    saveIco := fun base table => base.data ++ table.map Prod.fst }

/-- `goodEnv` with the cairosvg import failing. -/
def noCairoEnv : Env := { goodEnv with cairosvgOk := false }

/-- `goodEnv` with `logo.svg` absent. -/
def noSvgEnv : Env := { goodEnv with svgExists := false }

/-- `goodEnv` whose rasterizer fails at width 128 and succeeds elsewhere. -/
def fail128Env : Env :=
  { goodEnv with
      svg2png := fun w h =>
        if w = 128 then Except.error "raster failure" else Except.ok [w, h] }

/-- All filenames the script can ever write: the sweep names, the ICO
container, and the ICNS staging names. -/
def outputNames : List String :=
  sizes.map Prod.fst ++ "favicon.ico" :: icns_sizes.map icnsFileName

theorem pngSweep_writes_sub (env : Env) (l : List (String × Nat)) :
    (pngSweep env l).writes.map Prod.fst ⊆ l.map Prod.fst := by
  induction l with
  | nil => simp [pngSweep]
  | cons p rest ih =>
    obtain ⟨filename, size⟩ := p
    cases h : env.svg2png size size with
    | error msg => simp [pngSweep, h]
    | ok png_data =>
      simp only [pngSweep, h, List.map_cons]
      exact List.cons_subset_cons filename ih

theorem icnsLoop_writes_sub (env : Env) (l : List Nat) :
    (icnsLoop env l).1.map Prod.fst ⊆ l.map icnsFileName := by
  induction l with
  | nil => simp [icnsLoop]
  | cons size rest ih =>
    cases h : env.svg2png size size with
    | error msg => simp [icnsLoop, h]
    | ok png_data =>
      simp only [icnsLoop, h, List.map_cons]
      exact List.cons_subset_cons (icnsFileName size) ih

theorem applyWrites_not_mem (ws : List FileWrite) (fs : FS) (n : String)
    (h : n ∉ ws.map Prod.fst) : applyWrites ws fs n = fs n := by
  induction ws generalizing fs with
  | nil => rfl
  | cons w rest ih =>
    simp only [List.map_cons, List.mem_cons, not_or] at h
    show applyWrites rest _ n = fs n
    rw [ih _ h.2]
    simp [h.1]

theorem applyWrites_mem (ws : List FileWrite) (n : String) (b : Bytes)
    (hnd : (ws.map Prod.fst).Nodup) (hmem : (n, b) ∈ ws) (fs : FS) :
    applyWrites ws fs n = some b := by
  induction ws generalizing fs with
  | nil => simp at hmem
  | cons w rest ih =>
    simp only [List.map_cons, List.nodup_cons] at hnd
    rcases List.mem_cons.mp hmem with he | hm
    · have hn : n ∉ rest.map Prod.fst := by
        rw [show n = w.1 from congrArg Prod.fst he]
        exact hnd.1
      show applyWrites rest _ n = some b
      rw [applyWrites_not_mem _ _ _ hn]
      have h1 : n = w.1 := congrArg Prod.fst he
      have h2 : b = w.2 := congrArg Prod.snd he
      simp [h1, h2]
    · exact ih hnd.2 hm _

theorem applyWrites_congr (ws : List FileWrite) (n : String)
    (h : n ∈ ws.map Prod.fst) (fs fs' : FS) :
    applyWrites ws fs n = applyWrites ws fs' n := by
  induction ws generalizing fs fs' with
  | nil => simp at h
  | cons w rest ih =>
    by_cases hr : n ∈ rest.map Prod.fst
    · exact ih hr _ _
    · have hn : n = w.1 := by
        rcases List.mem_cons.mp h with h1 | h1
        · exact h1
        · exact absurd h1 hr
      show applyWrites rest _ n = applyWrites rest _ n
      rw [applyWrites_not_mem _ _ _ hr, applyWrites_not_mem _ _ _ hr]
      simp [hn]

theorem applyWrites_idem (ws : List FileWrite) (fs : FS) :
    applyWrites ws (applyWrites ws fs) = applyWrites ws fs := by
  funext n
  by_cases h : n ∈ ws.map Prod.fst
  · exact applyWrites_congr ws n h _ _
  · rw [applyWrites_not_mem _ _ _ h, applyWrites_not_mem _ _ _ h]

theorem generate_icons_writes_sub (env : Env) :
    (generate_icons env).writes.map Prod.fst ⊆ outputNames := by
  have hsweep : (pngSweep env sizes).writes.map Prod.fst ⊆ outputNames := by
    intro x hx
    exact List.mem_append_left _ (pngSweep_writes_sub env sizes hx)
  have hicns : (icnsLoop env icns_sizes).1.map Prod.fst ⊆ outputNames := by
    intro x hx
    exact List.mem_append_right _
      (List.mem_cons_of_mem _ (icnsLoop_writes_sub env icns_sizes hx))
  have hfav : "favicon.ico" ∈ outputNames :=
    List.mem_append_right _ (List.mem_cons_self _ _)
  cases hb : env.cairosvgOk && env.pillowOk with
  | false => simp [generate_icons, hb]
  | true =>
    cases hs : env.svgExists with
    | false => simp [generate_icons, hb, hs]
    | true =>
      cases herr : (pngSweep env sizes).err with
      | some e => simpa [generate_icons, hb, hs, herr] using hsweep
      | none =>
        cases hico : icoLoop env ico_sizes with
        | error e => simpa [generate_icons, hb, hs, herr, hico] using hsweep
        | ok imgs =>
          cases hhd : imgs.head? with
          | none => simpa [generate_icons, hb, hs, herr, hico, hhd] using hsweep
          | some base =>
            cases hicn : (icnsLoop env icns_sizes).2 with
            | some e =>
              simp only [generate_icons, hb, hs, herr, hico, hhd, hicn, if_true]
              intro x hx
              simp only [List.map_append, List.mem_append] at hx
              rcases hx with (hx | hx) | hx
              · exact hsweep hx
              · simp only [List.map_cons, List.map_nil, List.mem_singleton] at hx
                rw [hx]
                exact hfav
              · exact hicns hx
            | none =>
              simp only [generate_icons, hb, hs, herr, hico, hhd, hicn, if_true]
              intro x hx
              simp only [List.map_append, List.mem_append] at hx
              rcases hx with (hx | hx) | hx
              · exact hsweep hx
              · simp only [List.map_cons, List.map_nil, List.mem_singleton] at hx
                rw [hx]
                exact hfav
              · exact hicns hx

/-- C3: intent per the spec is that a run with a valid `logo.svg` writes
`favicon.ico` containing the four images at 16, 32, 48 and 64; the code
instead raises `NameError` on the unimported name `io` at the
`Image.open` call and never writes `favicon.ico`, even in an environment
where both imports succeed, the input exists and every rasterization
succeeds. -/
theorem C3_code_bug :
    (generate_icons goodEnv).result = Except.error (PyError.nameError "io")
    ∧ "favicon.ico" ∉ (generate_icons goodEnv).writes.map Prod.fst := by
  constructor
  · rfl
  · decide

/-- C4: the claim that the 6 ICNS-staging filenames are distinct from the
11 primary-mapping filenames is false: `icon_16x16.png` (and likewise the
other five) is already a primary-mapping filename, and the full set of PNG
output names deduplicates to 11, not 17. -/
theorem C4_counterexample :
    icnsFileName 16 ∈ sizes.map Prod.fst
    ∧ ((sizes.map Prod.fst) ++ icns_sizes.map icnsFileName).dedup.length = 11 := by
  decide

/-- C4 (amended): each of the 6 ICNS-staging filenames coincides with one
of the 11 primary-mapping filenames (exactly the first six, the macOS
entries), so a run produces 11 distinct PNG names, not 17; the ICNS loop
re-writes files already written by the sweep. -/
theorem C4_amended_thm :
    ((icns_sizes.map icnsFileName).all fun n => (sizes.map Prod.fst).contains n) = true
    ∧ ((sizes.map Prod.fst) ++ icns_sizes.map icnsFileName).dedup.length = 11
    ∧ (icnsLoop goodEnv icns_sizes).1.map Prod.fst = (sizes.map Prod.fst).take 6 := by
  decide

/-- C10: running the script twice against an unchanged deterministic
environment is idempotent: applying one run's writes twice to any file
system gives the same file system as applying them once (each write fully
overwrites its target), and no run ever touches `logo.svg` itself. -/
theorem C10_thm (env : Env) (fs : FS) :
    applyWrites (generate_icons env).writes
        (applyWrites (generate_icons env).writes fs)
      = applyWrites (generate_icons env).writes fs
    ∧ applyWrites (generate_icons env).writes fs "logo.svg" = fs "logo.svg" := by
  refine ⟨applyWrites_idem _ _, ?_⟩
  apply applyWrites_not_mem
  intro hmem
  exact absurd (generate_icons_writes_sub env hmem) (by decide)

/-- C1: the claim locates the undefined byte-stream-module reference in
the ICNS-staging loop and calls the ICO assembly correct; exactly the
reverse holds.  Every name the ICNS loop references resolves in scope and
the loop completes without error in a concrete working environment,
while the ICO loop references `io` (not in scope) and fails with
`NameError` in that same environment. -/
theorem C1_counterexample :
    icns_loop_refs.all inScope = true
    ∧ (icnsLoop goodEnv icns_sizes).2 = none
    ∧ "io" ∈ ico_loop_refs
    ∧ inScope "io" = false
    ∧ icoLoop goodEnv ico_sizes = Except.error (PyError.nameError "io") :=
  ⟨by decide, rfl, by decide, by decide, rfl⟩

/-- C1 (amended): it is the ICO assembly, not the ICNS staging, that
references the byte-stream module name `io` without it being imported or
defined in scope, so the ICO path fails at runtime with `NameError` as
soon as its first rasterization succeeds; the ICNS loop references only
names that resolve in scope. -/
theorem C1_amended_thm (env : Env) (b : Bytes)
    (h : env.svg2png 16 16 = Except.ok b) :
    icoLoop env ico_sizes = Except.error (PyError.nameError "io")
    ∧ "io" ∈ ico_loop_refs
    ∧ inScope "io" = false
    ∧ icns_loop_refs.all inScope = true := by
  have hio : inScope "io" = false := by decide
  refine ⟨?_, by decide, hio, by decide⟩
  simp [icoLoop, ico_sizes, h, hio]

/-- C1 witness: the amended statement holds in the concrete environment
with a working rasterizer. -/
theorem C1_amended_witness :
    icoLoop goodEnv ico_sizes = Except.error (PyError.nameError "io")
    ∧ "io" ∈ ico_loop_refs
    ∧ inScope "io" = false
    ∧ icns_loop_refs.all inScope = true :=
  C1_amended_thm goodEnv [16, 16] rfl

/-- C2: in any run where both imports succeed, `logo.svg` exists and the
PNG sweep completes without a rasterizer failure, `generate_icons`
raises `NameError` on the unimported name `io` in the ICO assembly: it
never returns `True`, writes only the sweep files (no `favicon.ico`, no
ICNS staging beyond what the sweep already wrote), never prints the
instructions, and a clean exit status 0 is unreachable. -/
theorem C2_thm (env : Env)
    (h1 : env.cairosvgOk = true) (h2 : env.pillowOk = true)
    (h3 : env.svgExists = true)
    (h4 : (pngSweep env sizes).err = none) :
    (generate_icons env).result = Except.error (PyError.nameError "io")
    ∧ (generate_icons env).writes = (pngSweep env sizes).writes
    ∧ "favicon.ico" ∉ (generate_icons env).writes.map Prod.fst
    ∧ (generate_icons env).prints
        = "Generating icons..." :: (pngSweep env sizes).prints ++ ["  favicon.ico"]
    ∧ mainExitCode (generate_icons env) ≠ Except.ok 0 := by
  have h16 : ∃ b, env.svg2png 16 16 = Except.ok b := by
    cases hx : env.svg2png 16 16 with
    | error msg =>
      exfalso
      simp [pngSweep, sizes, hx] at h4
    | ok b => exact ⟨b, rfl⟩
  obtain ⟨b, h16⟩ := h16
  have hio : inScope "io" = false := by decide
  have hico : icoLoop env ico_sizes = Except.error (PyError.nameError "io") := by
    simp [icoLoop, ico_sizes, h16, hio]
  have hgen : generate_icons env
      = ⟨"Generating icons..." :: (pngSweep env sizes).prints ++ ["  favicon.ico"],
         (pngSweep env sizes).writes,
         Except.error (PyError.nameError "io")⟩ := by
    simp [generate_icons, h1, h2, h3, h4, hico]
  rw [hgen]
  refine ⟨rfl, rfl, ?_, rfl, ?_⟩
  · intro hmem
    have hsub := pngSweep_writes_sub env sizes hmem
    revert hsub
    decide
  · simp [mainExitCode]

/-- C2 witness: the concrete working environment satisfies all the
hypotheses, so the run ends in the `io` NameError there. -/
theorem C2_witness :
    (generate_icons goodEnv).result = Except.error (PyError.nameError "io")
    ∧ (generate_icons goodEnv).writes = (pngSweep goodEnv sizes).writes
    ∧ "favicon.ico" ∉ (generate_icons goodEnv).writes.map Prod.fst
    ∧ (generate_icons goodEnv).prints
        = "Generating icons..." :: (pngSweep goodEnv sizes).prints ++ ["  favicon.ico"]
    ∧ mainExitCode (generate_icons goodEnv) ≠ Except.ok 0 :=
  C2_thm goodEnv rfl rfl rfl rfl

/-- C5: when the imports succeed but `logo.svg` is absent, the run writes
no files, prints the message naming the input path, returns `False`, and
the process exits with status 1. -/
theorem C5_thm (env : Env)
    (h1 : env.cairosvgOk = true) (h2 : env.pillowOk = true)
    (h3 : env.svgExists = false) :
    (generate_icons env).writes = []
    ∧ (generate_icons env).result = Except.ok false
    ∧ (generate_icons env).prints = ["SVG file logo.svg not found!"]
    ∧ mainExitCode (generate_icons env) = Except.ok 1 := by
  have hgen : generate_icons env
      = ⟨["SVG file logo.svg not found!"], [], Except.ok false⟩ := by
    simp [generate_icons, h1, h2, h3]
  rw [hgen]
  exact ⟨rfl, rfl, rfl, rfl⟩

/-- C5 witness: the missing-input environment exhibits the behaviour. -/
theorem C5_witness :
    (generate_icons noSvgEnv).writes = []
    ∧ (generate_icons noSvgEnv).result = Except.ok false
    ∧ (generate_icons noSvgEnv).prints = ["SVG file logo.svg not found!"]
    ∧ mainExitCode (generate_icons noSvgEnv) = Except.ok 1 :=
  C5_thm noSvgEnv rfl rfl rfl

/-- C6: when either rasterization capability fails to import, the run
performs no file writes at all, prints the install hint, returns `False`
and the process exits with status 1, before any file I/O. -/
theorem C6_thm (env : Env)
    (h : env.cairosvgOk = false ∨ env.pillowOk = false) :
    (generate_icons env).writes = []
    ∧ (generate_icons env).result = Except.ok false
    ∧ (generate_icons env).prints = importFailPrints
    ∧ mainExitCode (generate_icons env) = Except.ok 1 := by
  have hb : (env.cairosvgOk && env.pillowOk) = false := by
    rcases h with h | h <;> simp [h]
  have hgen : generate_icons env = ⟨importFailPrints, [], Except.ok false⟩ := by
    simp [generate_icons, hb]
  rw [hgen]
  exact ⟨rfl, rfl, rfl, rfl⟩

/-- C6 witness: the environment with the cairosvg import failing. -/
theorem C6_witness :
    (generate_icons noCairoEnv).writes = []
    ∧ (generate_icons noCairoEnv).result = Except.ok false
    ∧ (generate_icons noCairoEnv).prints = importFailPrints
    ∧ mainExitCode (generate_icons noCairoEnv) = Except.ok 1 :=
  C6_thm noCairoEnv (Or.inl rfl)

theorem map_fst_writes (l : List (String × Nat)) (f : Nat → Nat → Bytes) :
    (l.map (fun p => (p.1, f p.2 p.2))).map Prod.fst = l.map Prod.fst := by
  rw [List.map_map]
  rfl

theorem pngSweep_all_ok (env : Env) (f : Nat → Nat → Bytes)
    (l : List (String × Nat))
    (h : ∀ p ∈ l, env.svg2png p.2 p.2 = Except.ok (f p.2 p.2)) :
    pngSweep env l
      = ⟨l.map fun p => progressLine p.1 p.2,
         l.map fun p => (p.1, f p.2 p.2), none⟩ := by
  induction l with
  | nil => rfl
  | cons q rest ih =>
    obtain ⟨filename, size⟩ := q
    have hq : env.svg2png size size = Except.ok (f size size) :=
      h (filename, size) (List.mem_cons_self _ _)
    have hrest := ih (fun p hp => h p (List.mem_cons_of_mem _ hp))
    simp [pngSweep, hq, hrest]

theorem pngSweep_fail (env : Env) (f : Nat → Nat → Bytes) (msg : String)
    (pre : List (String × Nat)) (name : String) (size : Nat)
    (post : List (String × Nat))
    (hpre : ∀ p ∈ pre, env.svg2png p.2 p.2 = Except.ok (f p.2 p.2))
    (hfail : env.svg2png size size = Except.error msg) :
    pngSweep env (pre ++ (name, size) :: post)
      = ⟨pre.map (fun p => progressLine p.1 p.2) ++ [progressLine name size],
         pre.map (fun p => (p.1, f p.2 p.2)),
         some (PyError.rasterError msg)⟩ := by
  induction pre with
  | nil => simp [pngSweep, hfail]
  | cons q rest ih =>
    obtain ⟨qn, qs⟩ := q
    have hq : env.svg2png qs qs = Except.ok (f qs qs) :=
      hpre (qn, qs) (List.mem_cons_self _ _)
    have hrest := ih (fun p hp => hpre p (List.mem_cons_of_mem _ hp))
    simp [pngSweep, hq, hrest]

/-- C7: under a working rasterizer, the PNG sweep walks the 11 pairs of
the primary mapping in insertion order, writes the raster of size by size
to exactly the pair's filename, completes without error, the 11 literal
names are distinct, and after applying the writes to any starting file
system every mapping entry holds exactly its fresh raster bytes
(pre-existing content is overwritten). -/
theorem C7_thm (env : Env) (f : Nat → Nat → Bytes)
    (h : ∀ p ∈ sizes, env.svg2png p.2 p.2 = Except.ok (f p.2 p.2)) :
    (pngSweep env sizes).writes = sizes.map (fun p => (p.1, f p.2 p.2))
    ∧ (pngSweep env sizes).err = none
    ∧ sizes.map Prod.fst
        = ["icon_16x16.png", "icon_32x32.png", "icon_128x128.png",
           "icon_256x256.png", "icon_512x512.png", "icon_1024x1024.png",
           "favicon-16x16.png", "favicon-32x32.png", "favicon-96x96.png",
           "favicon-192x192.png", "apple-touch-icon.png"]
    ∧ sizes.length = 11
    ∧ (sizes.map Prod.fst).Nodup
    ∧ ∀ fs : FS, ∀ p ∈ sizes,
        applyWrites (pngSweep env sizes).writes fs p.1 = some (f p.2 p.2) := by
  have hs := pngSweep_all_ok env f sizes h
  rw [hs]
  refine ⟨rfl, rfl, by decide, by decide, by decide, ?_⟩
  intro fs p hp
  apply applyWrites_mem
  · rw [map_fst_writes]
    decide
  · exact List.mem_map_of_mem _ hp

/-- C7 witness: the sweep behaviour at the concrete working environment,
sampled at the last mapping entry over the empty file system. -/
theorem C7_witness :
    (pngSweep goodEnv sizes).writes = sizes.map (fun p => (p.1, [p.2, p.2]))
    ∧ (pngSweep goodEnv sizes).err = none
    ∧ applyWrites (pngSweep goodEnv sizes).writes (fun _ => none)
        "apple-touch-icon.png" = some [180, 180] := by
  have h := C7_thm goodEnv (fun w h => [w, h]) (fun p _ => rfl)
  exact ⟨h.1, h.2.1,
    h.2.2.2.2.2 (fun _ => none) ("apple-touch-icon.png", 180) (by decide)⟩

/-- C8: the `__main__` glue exits 0 exactly when `generate_icons` returns
`True`, and whenever a precondition fails (either import unavailable or
`logo.svg` absent) `generate_icons` returns `False` and the process
exits 1. -/
theorem C8_thm :
    (∀ r : RunResult, r.result = Except.ok true → mainExitCode r = Except.ok 0)
    ∧ (∀ env : Env,
        env.cairosvgOk = false ∨ env.pillowOk = false ∨ env.svgExists = false →
        (generate_icons env).result = Except.ok false
        ∧ mainExitCode (generate_icons env) = Except.ok 1) := by
  constructor
  · intro r h
    simp [mainExitCode, h]
  · intro env h
    by_cases hb : (env.cairosvgOk && env.pillowOk) = true
    · rw [Bool.and_eq_true] at hb
      have h3 : env.svgExists = false := by
        rcases h with h | h | h
        · simp [h] at hb
        · simp [h] at hb
        · exact h
      have hgen : generate_icons env
          = ⟨["SVG file logo.svg not found!"], [], Except.ok false⟩ := by
        simp [generate_icons, hb.1, hb.2, h3]
      rw [hgen]
      exact ⟨rfl, rfl⟩
    · have hb2 : (env.cairosvgOk && env.pillowOk) = false := by
        cases hx : env.cairosvgOk && env.pillowOk with
        | false => rfl
        | true => exact absurd hx hb
      have hgen : generate_icons env = ⟨importFailPrints, [], Except.ok false⟩ := by
        simp [generate_icons, hb2]
      rw [hgen]
      exact ⟨rfl, rfl⟩

/-- C8 witness: a returned `True` maps to exit 0, and the failed-import
environment exits 1. -/
theorem C8_witness :
    mainExitCode ⟨[], [], Except.ok true⟩ = Except.ok 0
    ∧ (generate_icons noCairoEnv).result = Except.ok false
    ∧ mainExitCode (generate_icons noCairoEnv) = Except.ok 1 := by
  have h := C8_thm
  exact ⟨h.1 ⟨[], [], Except.ok true⟩ rfl,
    (h.2 noCairoEnv (Or.inl rfl)).1, (h.2 noCairoEnv (Or.inl rfl)).2⟩

/-- C9: when the rasterizer fails at some pair of the sweep (the mapping
split as pre, failing pair, post), the failure is not caught anywhere in
`generate_icons`: the run result is exactly that error, only the pairs
before the failure were written, the written filenames are exactly the
pre names (nothing from post), and the console shows the failing pair as
the last progress line, so no later pair was processed. -/
theorem C9_thm (env : Env) (f : Nat → Nat → Bytes) (msg : String)
    (pre : List (String × Nat)) (name : String) (size : Nat)
    (post : List (String × Nat))
    (h1 : env.cairosvgOk = true) (h2 : env.pillowOk = true)
    (h3 : env.svgExists = true)
    (hpre : ∀ p ∈ pre, env.svg2png p.2 p.2 = Except.ok (f p.2 p.2))
    (hfail : env.svg2png size size = Except.error msg)
    (hdec : sizes = pre ++ (name, size) :: post) :
    (pngSweep env sizes).writes = pre.map (fun p => (p.1, f p.2 p.2))
    ∧ (pngSweep env sizes).err = some (PyError.rasterError msg)
    ∧ (generate_icons env).result = Except.error (PyError.rasterError msg)
    ∧ (generate_icons env).writes.map Prod.fst = pre.map Prod.fst
    ∧ (generate_icons env).prints
        = "Generating icons..."
          :: (pre.map (fun p => progressLine p.1 p.2) ++ [progressLine name size]) := by
  have hsw : pngSweep env sizes
      = ⟨pre.map (fun p => progressLine p.1 p.2) ++ [progressLine name size],
         pre.map (fun p => (p.1, f p.2 p.2)),
         some (PyError.rasterError msg)⟩ := by
    rw [hdec]
    exact pngSweep_fail env f msg pre name size post hpre hfail
  have hgen : generate_icons env
      = ⟨"Generating icons..."
           :: (pre.map (fun p => progressLine p.1 p.2) ++ [progressLine name size]),
         pre.map (fun p => (p.1, f p.2 p.2)),
         Except.error (PyError.rasterError msg)⟩ := by
    simp [generate_icons, h1, h2, h3, hsw]
  rw [hsw, hgen]
  exact ⟨rfl, rfl, rfl, map_fst_writes pre f, rfl⟩

/-- C9 witness: a rasterizer failing exactly at width 128 aborts the
sweep after the first two files; nothing later is processed or written
and the error escapes `generate_icons`. -/
theorem C9_witness :
    (pngSweep fail128Env sizes).writes
        = [("icon_16x16.png", [16, 16]), ("icon_32x32.png", [32, 32])]
    ∧ (pngSweep fail128Env sizes).err = some (PyError.rasterError "raster failure")
    ∧ (generate_icons fail128Env).result
        = Except.error (PyError.rasterError "raster failure")
    ∧ (generate_icons fail128Env).writes.map Prod.fst
        = ["icon_16x16.png", "icon_32x32.png"]
    ∧ (generate_icons fail128Env).prints
        = "Generating icons..."
          :: [progressLine "icon_16x16.png" 16, progressLine "icon_32x32.png" 32,
              progressLine "icon_128x128.png" 128] := by
  have h := C9_thm fail128Env (fun w h => [w, h]) "raster failure"
      [("icon_16x16.png", 16), ("icon_32x32.png", 32)] "icon_128x128.png" 128
      [("icon_256x256.png", 256), ("icon_512x512.png", 512),
       ("icon_1024x1024.png", 1024), ("favicon-16x16.png", 16),
       ("favicon-32x32.png", 32), ("favicon-96x96.png", 96),
       ("favicon-192x192.png", 192), ("apple-touch-icon.png", 180)]
      rfl rfl rfl (by intro p hp; fin_cases hp <;> rfl) rfl rfl
  exact ⟨h.1, h.2.1, h.2.2.1, h.2.2.2.1, h.2.2.2.2⟩
